import Mathlib

/-!
# Verification of `OpenClawBackend` (packages/happy-cli/src/openclaw/OpenClawBackend.ts)

A shallow embedding of the OpenClaw gateway bridge: the JSON-ish payload
values the backend inspects dynamically, the event translator
(`handleGatewayEvent`), the credential-resolution logic of the constructor,
the connect handshake (`buildDeviceAuthPayload`, `sendConnect`), and the
state-mutating operations (`rpc`, `sendPrompt`, `respondToPermission`,
`connect`, `dispose`).  Side effects of the TypeScript methods (messages
emitted to handlers, sockets closed, promise rejections issued, requests
written to the wire) are returned as explicit lists so that theorems can
speak about them.
-/

/-- A JSON value, restricted to the shapes the backend dynamically inspects.
Payload fields the source reads with `(x as string)` are modelled as `str`. -/
inductive JValue where
  | null : JValue
  | str : String → JValue
  | num : Int → JValue
  | bool : Bool → JValue
  | obj : List (String × JValue) → JValue
deriving Repr, BEq

/-- JavaScript truthiness for the payload values we model: `null`, `""`,
`0` and `false` are falsy, objects are truthy. -/
def JValue.truthy : JValue → Bool
  | .null => false
  | .str s => s ≠ ""
  | .num n => n ≠ 0
  | .bool b => b
  | .obj _ => true

/-- Property access `v[key]` on a payload: `none` models JS `undefined`
(absent field or access on a non-object). -/
def JValue.lookup (v : JValue) (key : String) : Option JValue :=
  match v with
  | .obj fields => List.lookup key fields
  | _ => .none

/-- `v[key]` when the field holds a string; `none` for absent or
non-string fields. -/
def JValue.getStr (v : JValue) (key : String) : Option String :=
  match v.lookup key with
  | some (.str s) => some s
  | _ => none

/-- The source idiom `(v.key as string) || ''`: the field's string value,
defaulting to the empty string. -/
def JValue.strD (v : JValue) (key : String) : String :=
  (v.getStr key).getD ""

/-- Truthiness of `v.key` (JS `undefined` is falsy). -/
def JValue.truthyField (v : JValue) (key : String) : Bool :=
  match v.lookup key with
  | some x => x.truthy
  | none => false

/-- An asynchronous gateway frame `{type:"event", event, payload?, seq?}`. -/
structure GatewayEvent where
  event : String
  payload : Option JValue
  seq : Option Int
deriving Repr, BEq

/-- The normalized outbound messages (`AgentMessage`) the backend emits. -/
inductive AgentMessage where
  | status (status : String) (detail : Option String)
  | modelOutput (textDelta : String) (fullText : String)
  | toolCall (toolName : String) (args : JValue) (callId : String)
  | toolResult (toolName : String) (result : Option JValue) (callId : String)
  | permissionRequest (id : String) (reason : String) (payload : JValue)
  | permissionResponse (id : String) (approved : Bool)
  | genericEvent (name : String) (payload : Option JValue)
deriving Repr, BEq

/-- The translator's mutable streaming state: `responseBuffer` and
`isResponding` fields of `OpenClawBackend`. -/
structure TranslatorState where
  responseBuffer : String
  isResponding : Bool
deriving Repr, BEq, DecidableEq

/-- `OpenClawBackend.handleGatewayEvent` (OpenClawBackend.ts:393-481),
translated clause by clause.  `fresh` stands for the value `randomUUID()`
would return where the source generates a fallback identifier.  Returns the
updated streaming state and the list of messages emitted, in order. -/
def handleGatewayEvent (fresh : String) (st : TranslatorState) (ev : GatewayEvent) :
    TranslatorState × List AgentMessage :=
  let p := ev.payload.getD (JValue.obj [])
  if ev.event = "agent" then
    -- const data = (p.data as Record<string, unknown>) || p;
    let data := match p.lookup "data" with
      | some v => if v.truthy then v else p
      | none => p
    -- const stream = (p.stream as string) || '';
    let stream := p.strD "stream"
    -- if (stream === 'text' || data.text) { const text = ...; if (text) ... }
    let (st1, ms1) :=
      if stream = "text" ∨ data.truthyField "text" then
        let text := data.strD "text"
        if text ≠ "" then
          (⟨st.responseBuffer ++ text, true⟩,
           [AgentMessage.modelOutput text (st.responseBuffer ++ text)])
        else (st, [])
      else (st, [])
    -- if (data.type === 'done' || data.type === 'turn.end')
    let (st2, ms2) :=
      if data.getStr "type" = some "done" ∨ data.getStr "type" = some "turn.end" then
        (⟨"", false⟩, [AgentMessage.status "idle" none])
      else (st1, [])
    -- if (data.type === 'turn.start')
    let (st3, ms3) :=
      if data.getStr "type" = some "turn.start" then
        (⟨"", true⟩, [AgentMessage.status "running" none])
      else (st2, [])
    -- if (data.type === 'tool.start')
    let ms4 :=
      if data.getStr "type" = some "tool.start" then
        let toolName := if data.strD "name" ≠ "" then data.strD "name" else "unknown"
        let callId := if data.strD "id" ≠ "" then data.strD "id" else fresh
        let args := match data.lookup "input" with
          | some v => if v.truthy then v else JValue.obj []
          | none => JValue.obj []
        [AgentMessage.toolCall toolName args callId]
      else []
    -- if (data.type === 'tool.end')
    let ms5 :=
      if data.getStr "type" = some "tool.end" then
        let toolName := if data.strD "name" ≠ "" then data.strD "name" else "unknown"
        let callId := data.strD "id"
        [AgentMessage.toolResult toolName (data.lookup "output") callId]
      else []
    -- if (data.type === 'error')
    let ms6 :=
      if data.getStr "type" = some "error" then
        let detail := if data.strD "message" ≠ "" then data.strD "message" else "Unknown error"
        [AgentMessage.status "error" (some detail)]
      else []
    (st3, ms1 ++ ms2 ++ ms3 ++ ms4 ++ ms5 ++ ms6)
  else if ev.event = "chat" then
    -- const text = (p.text as string) || (p.delta as string) || '';
    let text := if p.strD "text" ≠ "" then p.strD "text" else p.strD "delta"
    let (st1, ms1) :=
      if text ≠ "" then
        (⟨st.responseBuffer ++ text, true⟩,
         [AgentMessage.modelOutput text (st.responseBuffer ++ text)])
      else (st, [])
    -- if (p.type === 'done' || p.type === 'turn.end')
    let (st2, ms2) :=
      if p.getStr "type" = some "done" ∨ p.getStr "type" = some "turn.end" then
        (⟨"", false⟩, [AgentMessage.status "idle" none])
      else (st1, [])
    (st2, ms1 ++ ms2)
  else if ev.event = "exec.approval.requested" then
    let id := if p.strD "id" ≠ "" then p.strD "id" else fresh
    let reason := if p.strD "command" ≠ "" then p.strD "command" else p.strD "reason"
    (st, [AgentMessage.permissionRequest id reason p])
  else if ev.event = "health" ∨ ev.event = "tick" ∨ ev.event = "presence"
      ∨ ev.event = "heartbeat" then
    (st, [])
  else
    (st, [AgentMessage.genericEvent ev.event ev.payload])

/-- The socket `message` listener (OpenClawBackend.ts:212-254) intercepts
`connect.challenge` events before `handleGatewayMessage` runs, so the
translator never sees them; every other async event reaches
`handleGatewayEvent`. -/
def dispatchEvent (fresh : String) (st : TranslatorState) (ev : GatewayEvent) :
    TranslatorState × List AgentMessage :=
  if ev.event = "connect.challenge" then (st, [])
  else handleGatewayEvent fresh st ev

/-! ## Credential resolution (constructor, OpenClawBackend.ts:182-195) -/

/-- JavaScript `a || b` on strings: the empty string is falsy. -/
def jsOr (a b : String) : String :=
  if a = "" then b else a

/-- `loadGatewayToken` (OpenClawBackend.ts:140-148): reads
`~/.openclaw/openclaw.json` and returns `cfg?.gateway?.auth?.token || ''`.
`cfgFile = none` models a read or parse failure (the `catch` branch). -/
def loadGatewayToken (cfgFile : Option JValue) : String :=
  match cfgFile with
  | none => ""
  | some cfg =>
    let tok :=
      match cfg.lookup "gateway" with
      | some g =>
        match g.lookup "auth" with
        | some a => a.strD "token"
        | none => ""
      | none => ""
    jsOr tok ""

/-- The constructor's token resolution (OpenClawBackend.ts:183):
`config.token || loadGatewayToken() || process.env.OPENCLAW_GATEWAY_TOKEN || ''`.
`configToken`/`envToken` are `none` when the caller/environment supplies
nothing. -/
def resolveToken (configToken : Option String) (cfgFile : Option JValue)
    (envToken : Option String) : String :=
  jsOr (configToken.getD "") (jsOr (loadGatewayToken cfgFile) (jsOr (envToken.getD "") ""))

/-! ## Device auth handshake (OpenClawBackend.ts:99-120, 271-336) -/

/-- The on-disk device identity (`~/.openclaw/identity/device.json`). -/
structure DeviceIdentity where
  deviceId : String
  publicKeyPem : String
  privateKeyPem : String

/-- `buildDeviceAuthPayload` (OpenClawBackend.ts:99-120): the v2 canonical
string that gets signed, the listed components joined with `"|"`.
`token.getD ""` is the source's `params.token ?? ''`. -/
def buildDeviceAuthPayload (deviceId clientId clientMode role : String)
    (scopes : List String) (signedAtMs : Int) (token : Option String)
    (nonce : String) : String :=
  String.intercalate "|"
    [ "v2", deviceId, clientId, clientMode, role,
      String.intercalate "," scopes, toString signedAtMs, token.getD "", nonce ]

/-- The `device` block of the connect request
(`{id, publicKey, signature, signedAt, nonce}`). -/
structure DeviceField where
  id : String
  publicKey : String
  signature : String
  signedAt : Int
  nonce : String

/-- The `client` descriptor of the connect request. -/
structure ClientInfo where
  id : String
  version : String
  platform : String
  mode : String

/-- The `params` object of the `connect` request built by `sendConnect`. -/
structure ConnectParams where
  minProtocol : Int
  maxProtocol : Int
  client : ClientInfo
  role : String
  scopes : List String
  auth : Option String
  device : Option DeviceField

/-- The nonce stored from a `connect.challenge` event
(OpenClawBackend.ts:220): `(payload.nonce as string) || ''`. -/
def challengeNonce (payload : JValue) : String :=
  jsOr (payload.strD "nonce") ""

/-- `OpenClawBackend.sendConnect` (OpenClawBackend.ts:271-336).  The Ed25519
signature and the raw-public-key extraction are abstracted as the function
parameters `sign` (private key PEM and message to base64url signature) and
`pubRaw` (public key PEM to base64url raw key); everything else is the
source's construction of the request `params`.  `token` is
`this.config.token`, `connectNonce` is `this.connectNonce` (JS `null`
modelled as `none`), `signedAtMs` is `Date.now()`. -/
def sendConnect (sign : String → String → String) (pubRaw : String → String)
    (device : Option DeviceIdentity) (connectNonce : Option String)
    (token : String) (signedAtMs : Int) (platform : String) : ConnectParams :=
  let role := "operator"
  let scopes := ["operator.read", "operator.write"]
  let clientId := "cli"
  let clientMode := "cli"
  -- if (this.device && this.connectNonce): both JS-truthy
  let deviceField : Option DeviceField :=
    match device, connectNonce with
    | some d, some n =>
      if n ≠ "" then
        let payload := buildDeviceAuthPayload d.deviceId clientId clientMode role
          scopes signedAtMs (if token = "" then none else some token) n
        some ⟨d.deviceId, pubRaw d.publicKeyPem, sign d.privateKeyPem payload,
              signedAtMs, n⟩
      else none
    | _, _ => none
  { minProtocol := 3
    maxProtocol := 3
    client := ⟨clientId, "1.0.0", platform, clientMode⟩
    role := role
    scopes := scopes
    -- if (this.config.token) params.auth = { token }
    auth := if token = "" then none else some token
    device := deviceField }

/-! ## Connection-manager state and operations -/

/-- A transport handle: `handle` identifies the socket object, `readyState`
is the WebSocket ready state (`WS_OPEN = 1`). -/
structure OCSocket where
  handle : Nat
  readyState : Nat
deriving Repr, DecidableEq

/-- The mutable connection fields of `OpenClawBackend`: the socket, the
`connected` flag, the `pendingRequests` correlation map (only the pending
ids matter to our claims), the handler registrations, and the translator
state. -/
structure BackendState where
  ws : Option OCSocket
  connected : Bool
  pendingRequests : List String
  handlers : List Nat
  responseBuffer : String
  isResponding : Bool
deriving Repr, DecidableEq

/-- `WS_OPEN` (OpenClawBackend.ts:44). -/
def WS_OPEN : Nat := 1

/-- `this.ws && this.ws.readyState === WS_OPEN`: a live, open transport. -/
def BackendState.wsOpen (st : BackendState) : Bool :=
  match st.ws with
  | some s => s.readyState = WS_OPEN
  | none => false

namespace OpenClawBackend

/-- `OpenClawBackend.dispose` (OpenClawBackend.ts:575-584).  Returns the new
state, the handles of sockets it closed, and the promise rejections it
issued as `(requestId, errorMessage)` pairs — the source calls
`pendingRequests.clear()` and never invokes any stored `reject` callback,
so the rejection list is empty. -/
def dispose (st : BackendState) :
    BackendState × List Nat × List (String × String) :=
  let closed := match st.ws with
    | some s => [s.handle]
    | none => []
  ({ st with connected := false, ws := none, handlers := [], pendingRequests := [] },
   closed, [])

/-- `OpenClawBackend.rpc` (OpenClawBackend.ts:347-370) up to issuing the
request: a fresh correlation id `id` is registered in `pendingRequests`
(before `sendRaw` runs, as in the source), then `sendRaw` either writes the
frame or throws `'WebSocket not connected'` (OpenClawBackend.ts:340-342),
which rejects the returned promise.  `.ok ()` means the request was written
and the promise is left pending for the gateway's response. -/
def rpc (st : BackendState) (id method : String) :
    BackendState × Except String Unit :=
  let st1 := { st with pendingRequests := st.pendingRequests ++ [id] }
  if st.wsOpen then (st1, .ok ())
  else (st1, .error "WebSocket not connected")

/-- One `connect()` attempt (OpenClawBackend.ts:198-268) up to the creation
of the new socket: if `this.connected` holds and the socket is open the call
returns immediately; otherwise `this.ws = createSocket(url)` overwrites the
field with a fresh handle (ready state `0`, connecting).  Returns the new
state and the handles of any sockets the step closed — the source never
closes the previous socket here. -/
def connectStep (st : BackendState) (freshHandle : Nat) :
    BackendState × List Nat :=
  if st.connected ∧ st.wsOpen then (st, [])
  else ({ st with ws := some ⟨freshHandle, 0⟩ }, [])

/-- A `chat.send` request body. -/
structure ChatSendParams where
  sessionKey : String
  message : String
  idempotencyKey : String
deriving Repr, DecidableEq

/-- `OpenClawBackend.sendPrompt` (OpenClawBackend.ts:511-525) up to issuing
the `chat.send` request (the await of the gateway's response is outside this
step).  `rpcId`/`idemKey` stand for the two `randomUUID()` calls,
`sessionKey` for `this.config.sessionKey`.  Returns the thrown error or
unit, the state after the step, the messages emitted, and the `chat.send`
requests issued. -/
def sendPrompt (st : BackendState) (sessionKey rpcId idemKey prompt : String) :
    Except String Unit × BackendState × List AgentMessage × List ChatSendParams :=
  if st.connected = false then
    (.error "Not connected to OpenClaw Gateway", st, [], [])
  else
    let st1 := { st with responseBuffer := "", isResponding := true }
    let msgs := [AgentMessage.status "running" none]
    let (st2, res) := rpc st1 rpcId "chat.send"
    (res, st2, msgs, [⟨sessionKey, prompt, idemKey⟩])

/-- An `exec.approval.resolve` request body. -/
structure ApprovalResolveParams where
  id : String
  approved : Bool
deriving Repr, DecidableEq

/-- `OpenClawBackend.respondToPermission` (OpenClawBackend.ts:553-566).
`rpcOutcome` abstracts the fate of the `exec.approval.resolve` RPC (resolved
or rejected); the source wraps the await in `try`/`catch`, so the outcome
cannot influence what follows.  Returns the requests issued and the
messages emitted. -/
def respondToPermission (st : BackendState) (rpcOutcome : Except String Unit)
    (requestId : String) (approved : Bool) :
    List ApprovalResolveParams × List AgentMessage :=
  if st.connected = false then ([], [])
  else
    ([⟨requestId, approved⟩], [AgentMessage.permissionResponse requestId approved])

end OpenClawBackend

/-! ## Event sequences and the streaming accumulator -/

/-- Run the translator over a list of inbound events, collecting all
messages in order. -/
def runEvents (fresh : String) (st : TranslatorState) :
    List GatewayEvent → TranslatorState × List AgentMessage
  | [] => (st, [])
  | e :: rest =>
    let (st1, ms) := handleGatewayEvent fresh st e
    let (st2, ms') := runEvents fresh st1 rest
    (st2, ms ++ ms')

/-- The three wire shapes from which the translator reads a streaming text
delta: an `agent` event with `data.text`, a `chat` event with `text`, and a
`chat` event with `delta`. -/
inductive DeltaEvent where
  | agentText (d : String)
  | chatText (d : String)
  | chatDelta (d : String)

/-- The delta carried by a `DeltaEvent`. -/
def DeltaEvent.delta : DeltaEvent → String
  | .agentText d => d
  | .chatText d => d
  | .chatDelta d => d

/-- The gateway frame for a `DeltaEvent`. -/
def DeltaEvent.toGateway : DeltaEvent → GatewayEvent
  | .agentText d => ⟨"agent", some (.obj [("data", .obj [("text", .str d)])]), none⟩
  | .chatText d => ⟨"chat", some (.obj [("text", .str d)]), none⟩
  | .chatDelta d => ⟨"chat", some (.obj [("delta", .str d)]), none⟩

/-- The model-output messages the accumulator produces from deltas `ds`
starting with buffered text `acc`: the k-th message carries the k-th delta
and the concatenation of `acc` with the first k deltas. -/
def accumOutputs (acc : String) : List String → List AgentMessage
  | [] => []
  | d :: ds => AgentMessage.modelOutput d (acc ++ d) :: accumOutputs (acc ++ d) ds

/-- Concatenation of a list of deltas. -/
def concatAll : List String → String
  | [] => ""
  | d :: ds => d ++ concatAll ds

/-! ## Claim theorems -/

/-- Claim C1 (code evaluation at the failing input): for the inbound chat
event `{state:"error", errorMessage:"boom"}` the translator emits no message
at all and leaves the streaming state untouched — the chat handler
(OpenClawBackend.ts:447-460) inspects `payload.text`/`payload.delta` and
`payload.type`, never the documented `state`/`errorMessage` fields, so no
`status:error` message with detail `"boom"` is produced. -/
theorem chat_error_event_emits_no_message_c1 :
    handleGatewayEvent "f" ⟨"", false⟩
      ⟨"chat", some (.obj [("state", .str "error"), ("errorMessage", .str "boom")]), none⟩ =
      (⟨"", false⟩, []) := rfl

/-- Claim C3 (code evaluation at the failing inputs): for agent events with
stream discriminator `"lifecycle"` and `phase` `"start"` (resp. `"end"`),
the translator emits no message and neither resets nor clears the
accumulator — the agent handler (OpenClawBackend.ts:398-444) inspects
`data.type` for the values `turn.start`/`done`/`turn.end`, never
`data.phase`, so the documented lifecycle events match nothing. -/
theorem lifecycle_phase_events_emit_no_message_c3 :
    handleGatewayEvent "f" ⟨"buffered", false⟩
      ⟨"agent",
       some (.obj [("stream", .str "lifecycle"), ("data", .obj [("phase", .str "start")])]),
       none⟩ =
      (⟨"buffered", false⟩, [])
    ∧ handleGatewayEvent "f" ⟨"buffered", true⟩
      ⟨"agent",
       some (.obj [("stream", .str "lifecycle"), ("data", .obj [("phase", .str "end")])]),
       none⟩ =
      (⟨"buffered", true⟩, []) := ⟨rfl, rfl⟩

/-- Claim C7: an inbound event whose name is none of the recognized kinds
(`connect.challenge` is intercepted by the socket listener, `agent`, `chat`,
`exec.approval.requested` are dispatched) and none of the denylisted noisy
classes (`health`, `tick`, `presence`, `heartbeat`) produces exactly one
generic-event message carrying the original name and payload, and nothing
else; the streaming state is untouched. -/
theorem unknown_event_generic_fallback_c7 (fresh name : String)
    (payload : Option JValue) (seq : Option Int) (st : TranslatorState)
    (h : name ∉ ["connect.challenge", "agent", "chat", "exec.approval.requested",
                 "health", "tick", "presence", "heartbeat"]) :
    dispatchEvent fresh st ⟨name, payload, seq⟩ =
      (st, [AgentMessage.genericEvent name payload]) := by
  simp only [List.mem_cons, List.not_mem_nil, or_false, not_or] at h
  obtain ⟨h1, h2, h3, h4, h5, h6, h7, h8⟩ := h
  simp [dispatchEvent, handleGatewayEvent, h1, h2, h3, h4, h5, h6, h7, h8]

/-- Witness for C7 at the concrete unknown event name `"node.status"`. -/
theorem unknown_event_generic_fallback_c7_witness :
    dispatchEvent "f" ⟨"", false⟩
      ⟨"node.status", some (.obj [("x", .str "1")]), none⟩ =
      (⟨"", false⟩,
       [AgentMessage.genericEvent "node.status" (some (.obj [("x", .str "1")]))]) :=
  unknown_event_generic_fallback_c7 "f" "node.status"
    (some (.obj [("x", .str "1")])) none ⟨"", false⟩ (by decide)

/-- Claim C10: `sendPrompt` invoked while the backend is not connected
throws `'Not connected to OpenClaw Gateway'` before any mutation
(OpenClawBackend.ts:512-514): the state (accumulator and `isResponding`
flag included) is returned unchanged, no message is emitted, and no
`chat.send` request is issued. -/
theorem sendPrompt_not_connected_no_effect_c10 (st : BackendState)
    (sessionKey rpcId idemKey prompt : String) (h : st.connected = false) :
    OpenClawBackend.sendPrompt st sessionKey rpcId idemKey prompt =
      (.error "Not connected to OpenClaw Gateway", st, [], []) := by
  simp [OpenClawBackend.sendPrompt, h]

/-- Witness for C10 at a concrete disconnected state. -/
theorem sendPrompt_not_connected_no_effect_c10_witness :
    OpenClawBackend.sendPrompt ⟨none, false, ["pending1"], [0], "buf", true⟩
        "main" "rpc1" "idem1" "hello" =
      (.error "Not connected to OpenClaw Gateway",
       ⟨none, false, ["pending1"], [0], "buf", true⟩, [], []) :=
  sendPrompt_not_connected_no_effect_c10
    ⟨none, false, ["pending1"], [0], "buf", true⟩ "main" "rpc1" "idem1" "hello" rfl

/-- Counterexample to claim C8: with the backend not connected — the case
in which the approval-resolution RPC cannot be issued — `respondToPermission`
returns at OpenClawBackend.ts:554 without emitting anything, so no
`permission-response` message reaches the handlers. -/
theorem respondToPermission_disconnected_silent_c8_cex :
    AgentMessage.permissionResponse "req-1" true ∉
      (OpenClawBackend.respondToPermission ⟨none, false, [], [], "", false⟩
        (.error "WebSocket not connected") "req-1" true).2 := by
  simp [OpenClawBackend.respondToPermission]

/-- Claim C8 as amended: when the backend is connected,
`respondToPermission(id, approved)` emits the local `permission-response`
message carrying that id and approved value regardless of whether the
`exec.approval.resolve` RPC resolves or rejects (the await is wrapped in
`try`/`catch`); when the backend is not connected, the call returns without
issuing the RPC and without emitting any message. -/
theorem respondToPermission_emits_when_connected_c8 (st : BackendState)
    (rpcOutcome : Except String Unit) (id : String) (approved : Bool) :
    (st.connected = true →
      OpenClawBackend.respondToPermission st rpcOutcome id approved =
        ([⟨id, approved⟩], [AgentMessage.permissionResponse id approved]))
    ∧ (st.connected = false →
      OpenClawBackend.respondToPermission st rpcOutcome id approved = ([], [])) := by
  constructor <;> intro h <;> simp [OpenClawBackend.respondToPermission, h]

/-- Witness for C8 (amended) at a connected state whose RPC rejects. -/
theorem respondToPermission_emits_when_connected_c8_witness :
    OpenClawBackend.respondToPermission ⟨some ⟨3, 1⟩, true, [], [0], "", false⟩
        (.error "boom") "p1" false =
      ([⟨"p1", false⟩], [AgentMessage.permissionResponse "p1" false]) :=
  (respondToPermission_emits_when_connected_c8
    ⟨some ⟨3, 1⟩, true, [], [0], "", false⟩ (.error "boom") "p1" false).1 rfl

/-- Counterexample to claim C2: at a state with one pending RPC (`"r1"`),
`dispose` issues zero promise rejections — `pendingRequests.clear()`
(OpenClawBackend.ts:582) drops the bookkeeping without invoking any stored
`reject` callback, so the pending promise is not rejected with `Disposed`. -/
theorem dispose_rejects_no_pending_c2_cex :
    (⟨some ⟨5, 1⟩, true, ["r1"], [0], "", true⟩ : BackendState).pendingRequests.length = 1
    ∧ (OpenClawBackend.dispose ⟨some ⟨5, 1⟩, true, ["r1"], [0], "", true⟩).2.2 = [] :=
  ⟨rfl, rfl⟩

/-- Claim C2 as amended: `dispose()` transitions to disconnected, closes the
transport if open, clears the handler registrations and the pending-RPC map
without rejecting any of the pending RPC promises (each is left to its own
60 s timer), and any `rpc()` call made after `dispose()` fails with the
`'WebSocket not connected'` error. -/
theorem dispose_clears_without_rejecting_c2 (st : BackendState) :
    OpenClawBackend.dispose st =
      ({ st with connected := false, ws := none, handlers := [], pendingRequests := [] },
       (match st.ws with | some s => [s.handle] | none => []), [])
    ∧ ∀ id method,
      (OpenClawBackend.rpc (OpenClawBackend.dispose st).1 id method).2 =
        .error "WebSocket not connected" := by
  refine ⟨rfl, fun id method => ?_⟩
  simp [OpenClawBackend.rpc, OpenClawBackend.dispose, BackendState.wsOpen]

/-- Counterexample to claim C9: at a state holding an open socket (handle 7,
ready state `WS_OPEN`) with the `connected` flag down — e.g. after a failed
or timed-out handshake — a new `connect()` attempt creates socket 8 and
overwrites `this.ws` without closing socket 7: the step closes nothing, so
the previous transport handle is not torn down and two handles are live. -/
theorem connect_leaves_previous_socket_open_c9_cex :
    (⟨some ⟨7, 1⟩, false, [], [], "", false⟩ : BackendState).wsOpen = true
    ∧ (OpenClawBackend.connectStep ⟨some ⟨7, 1⟩, false, [], [], "", false⟩ 8).2 = []
    ∧ (OpenClawBackend.connectStep ⟨some ⟨7, 1⟩, false, [], [], "", false⟩ 8).1.ws =
        some ⟨8, 0⟩ :=
  ⟨rfl, rfl, rfl⟩

/-- Claim C9 as amended: a `connect()` attempt never closes any socket;
when the backend is not already connected with an open transport, it
overwrites `this.ws` with the freshly created socket, abandoning (not
tearing down) the previously held handle. -/
theorem connect_replaces_without_teardown_c9 (st : BackendState) (freshHandle : Nat) :
    (OpenClawBackend.connectStep st freshHandle).2 = []
    ∧ (¬(st.connected ∧ st.wsOpen) →
        OpenClawBackend.connectStep st freshHandle =
          ({ st with ws := some ⟨freshHandle, 0⟩ }, [])) := by
  constructor
  · unfold OpenClawBackend.connectStep
    split <;> rfl
  · intro h
    unfold OpenClawBackend.connectStep
    rw [if_neg h]

/-- Witness for C9 (amended) at a concrete state with a stale socket. -/
theorem connect_replaces_without_teardown_c9_witness :
    OpenClawBackend.connectStep ⟨some ⟨7, 1⟩, false, [], [], "", false⟩ 8 =
      (⟨some ⟨8, 0⟩, false, [], [], "", false⟩, []) :=
  (connect_replaces_without_teardown_c9 ⟨some ⟨7, 1⟩, false, [], [], "", false⟩ 8).2
    (by decide)

/-- Claim C4: the bearer token is resolved with precedence explicit
caller-supplied value > configuration-file value > environment variable
(OpenClawBackend.ts:183); in particular, with no caller value and a
non-empty configuration-file token, the configuration-file value wins even
when an environment token is present. -/
theorem token_precedence_c4 (configToken : Option String) (cfgFile : Option JValue)
    (envToken : Option String) :
    (∀ c, configToken = some c → c ≠ "" →
      resolveToken configToken cfgFile envToken = c)
    ∧ (configToken.getD "" = "" → loadGatewayToken cfgFile ≠ "" →
        resolveToken configToken cfgFile envToken = loadGatewayToken cfgFile)
    ∧ (configToken.getD "" = "" → loadGatewayToken cfgFile = "" →
        resolveToken configToken cfgFile envToken = envToken.getD "") := by
  refine ⟨fun c hc hne => ?_, fun h1 h2 => ?_, fun h1 h2 => ?_⟩
  · simp [resolveToken, jsOr, hc, hne]
  · simp [resolveToken, jsOr, h1, h2]
  · by_cases he : envToken.getD "" = "" <;> simp [resolveToken, jsOr, h1, h2, he]

/-- Witness for C4: caller supplies nothing, the configuration file holds
`"cfgTok"` and the environment holds `"envTok"`; the resolved token is the
configuration-file value. -/
theorem token_precedence_c4_witness :
    resolveToken none
      (some (.obj [("gateway", .obj [("auth", .obj [("token", .str "cfgTok")])])]))
      (some "envTok") = "cfgTok" :=
  ((token_precedence_c4 none
      (some (.obj [("gateway", .obj [("auth", .obj [("token", .str "cfgTok")])])]))
      (some "envTok")).2.1 rfl (by decide)).trans rfl

/-- Claim C5: after a challenge event carrying a non-empty nonce, the
connect request built with a loaded device identity carries a device block
whose `nonce` equals the challenge nonce and whose `signature` is the
device-private-key signature of exactly the canonical payload string: the
version tag `v2`, the device id, client identity `cli`, client mode `cli`,
role `operator`, the joined scopes list `operator.read,operator.write`
(sorted), the timestamp, the bearer token (empty if absent) and the nonce,
joined with the `"|"` delimiter.  `sign` abstracts base64url-encoded
Ed25519 signing, `pubRaw` the raw-public-key encoding. -/
theorem device_auth_nonce_and_signature_c5 (sign : String → String → String)
    (pubRaw : String → String) (d : DeviceIdentity) (p : JValue)
    (token : String) (t : Int) (platform : String)
    (h : challengeNonce p ≠ "") :
    (sendConnect sign pubRaw (some d) (some (challengeNonce p)) token t platform).device =
      some ⟨d.deviceId, pubRaw d.publicKeyPem,
            sign d.privateKeyPem
              (String.intercalate "|"
                ["v2", d.deviceId, "cli", "cli", "operator",
                 "operator.read,operator.write", toString t, token, challengeNonce p]),
            t, challengeNonce p⟩
    ∧ List.Pairwise (· < ·) ["operator.read", "operator.write"] := by
  constructor
  · simp only [sendConnect, buildDeviceAuthPayload, if_pos h]
    by_cases ht : token = "" <;> simp [ht, String.intercalate] <;> rfl
  · refine List.Pairwise.cons ?_ (List.pairwise_singleton _ _)
    intro a ha
    rw [List.mem_singleton] at ha
    subst ha
    rw [String.lt_iff_toList_lt]
    decide

/-- Witness for C5 at the challenge `{nonce:"n1"}` with concrete signing
functions, device identity, token and timestamp. -/
theorem device_auth_nonce_and_signature_c5_witness :
    (sendConnect (fun k m => k ++ "#" ++ m) (fun s => "raw:" ++ s)
        (some ⟨"dev1", "PUBPEM", "PRIVPEM"⟩)
        (some (challengeNonce (.obj [("nonce", .str "n1")])))
        "tok" 5 "linux").device =
      some ⟨"dev1", "raw:PUBPEM",
            "PRIVPEM#v2|dev1|cli|cli|operator|operator.read,operator.write|5|tok|n1",
            5, "n1"⟩
    ∧ List.Pairwise (· < ·) ["operator.read", "operator.write"] := by
  have h := device_auth_nonce_and_signature_c5 (fun k m => k ++ "#" ++ m)
    (fun s => "raw:" ++ s) ⟨"dev1", "PUBPEM", "PRIVPEM"⟩
    (.obj [("nonce", .str "n1")]) "tok" 5 "linux" (by decide)
  exact ⟨h.1.trans (by rfl), h.2⟩

/-- Helper for C6: one delta-carrying event appends its delta to the buffer,
raises the responding flag, and emits exactly one model-output message
whose `fullText` is the accumulated text. -/
theorem handleGatewayEvent_delta (fresh b : String) (r : Bool) (e : DeltaEvent)
    (h : e.delta ≠ "") :
    handleGatewayEvent fresh ⟨b, r⟩ e.toGateway =
      (⟨b ++ e.delta, true⟩, [AgentMessage.modelOutput e.delta (b ++ e.delta)]) := by
  cases e with
  | agentText d =>
    simp only [DeltaEvent.delta] at h
    simp [DeltaEvent.toGateway, DeltaEvent.delta, handleGatewayEvent, JValue.lookup,
      JValue.strD, JValue.getStr, JValue.truthyField, JValue.truthy, List.lookup, h]
  | chatText d =>
    simp only [DeltaEvent.delta] at h
    simp [DeltaEvent.toGateway, DeltaEvent.delta, handleGatewayEvent, JValue.lookup,
      JValue.strD, JValue.getStr, JValue.truthyField, JValue.truthy, List.lookup, h]
  | chatDelta d =>
    simp only [DeltaEvent.delta] at h
    simp [DeltaEvent.toGateway, DeltaEvent.delta, handleGatewayEvent, JValue.lookup,
      JValue.strD, JValue.getStr, JValue.truthyField, JValue.truthy, List.lookup, h]

/-- Helper for C6: over any sequence of delta-carrying events the
accumulator threads: starting from buffer `b`, the emitted model-output
messages are `accumOutputs b` of the deltas and the final buffer is `b`
followed by their concatenation. -/
theorem runEvents_accumulates (fresh : String) (es : List DeltaEvent) :
    ∀ (b : String) (r : Bool), (∀ e ∈ es, e.delta ≠ "") →
    runEvents fresh ⟨b, r⟩ (es.map DeltaEvent.toGateway) =
      (⟨b ++ concatAll (es.map DeltaEvent.delta), if es.isEmpty then r else true⟩,
       accumOutputs b (es.map DeltaEvent.delta)) := by
  induction es with
  | nil =>
    intro b r _
    simp [runEvents, concatAll, accumOutputs, String.append_empty]
  | cons e es ih =>
    intro b r h
    have he := h e (List.mem_cons_self e es)
    have hrest : ∀ x ∈ es, x.delta ≠ "" := fun x hx => h x (List.mem_cons_of_mem e hx)
    simp only [List.map_cons, runEvents, handleGatewayEvent_delta fresh b r e he,
      ih (b ++ e.delta) true hrest]
    simp [concatAll, accumOutputs, String.append_assoc]

/-- Claim C6: from an empty accumulator, a sequence of inbound streaming
events carrying non-empty deltas d1,…,dk (with no intervening terminal or
reset event) yields exactly k model-output messages carrying those deltas
in order, the k-th `fullText` being the concatenation d1‖…‖dk; and the
accumulator for the next prompt starts empty, since `sendPrompt`
(OpenClawBackend.ts:516) resets `responseBuffer` before issuing the
`chat.send` RPC. -/
theorem streaming_accumulator_concat_c6 :
    (∀ (fresh : String) (r : Bool) (es : List DeltaEvent),
      (∀ e ∈ es, e.delta ≠ "") →
      runEvents fresh ⟨"", r⟩ (es.map DeltaEvent.toGateway) =
        (⟨concatAll (es.map DeltaEvent.delta), if es.isEmpty then r else true⟩,
         accumOutputs "" (es.map DeltaEvent.delta)))
    ∧ (∀ (st : BackendState) (sessionKey rpcId idemKey prompt : String),
        st.connected = true →
        (OpenClawBackend.sendPrompt st sessionKey rpcId idemKey prompt).2.1.responseBuffer
          = "") := by
  constructor
  · intro fresh r es h
    have hrun := runEvents_accumulates fresh es "" r h
    simpa [String.empty_append] using hrun
  · intro st sessionKey rpcId idemKey prompt h
    simp [OpenClawBackend.sendPrompt, OpenClawBackend.rpc, h]
    split <;> rfl

/-- Witness for C6: the deltas `"Hi"` then `" there"` produce two
model-output messages with `fullText` `"Hi"` then `"Hi there"`, and a
`sendPrompt` on a connected state with stale buffered text resets the
accumulator to empty. -/
theorem streaming_accumulator_concat_c6_witness :
    runEvents "f" ⟨"", false⟩
        (List.map DeltaEvent.toGateway [.agentText "Hi", .chatText " there"]) =
      (⟨"Hi there", true⟩,
       [AgentMessage.modelOutput "Hi" "Hi",
        AgentMessage.modelOutput " there" "Hi there"])
    ∧ (OpenClawBackend.sendPrompt ⟨some ⟨1, 1⟩, true, [], [], "old", true⟩
        "main" "r1" "i1" "go").2.1.responseBuffer = "" := by
  have h := streaming_accumulator_concat_c6
  exact ⟨(h.1 "f" false [.agentText "Hi", .chatText " there"] (by decide)).trans rfl,
         h.2 ⟨some ⟨1, 1⟩, true, [], [], "old", true⟩ "main" "r1" "i1" "go" rfl⟩
